import Mathlib

/-!
Verification of the capability dispatch engine and the concrete Rust
functions of `src/main.rs` (traits-and-generics repository).

The repository's `src/main.rs` narrates the design; the engine itself
(coherence registry, bound checker, static specializer, vtable builder,
object wrapper) is described only in the specification, so those
components are modelled from the spec.  The concrete functions that do
appear in the source (`dot`, the `Sink` writer and the default
`write_all` of the `Write` trait) are embedded directly from the code.
-/

set_option autoImplicit false

namespace CapEngine

/-- Modelled from the spec: a runtime value, carrying its concrete
`TypeId` (the TypeId provider of §6) and an opaque payload. -/
structure Value where
  typeId : Nat
  payload : String

/-- Modelled from the spec: a method body, invoked with the data pointer
as receiver; the return value is modelled as text. -/
def MethodBody : Type := Value → String

/-- Modelled from the spec: one method signature of a capability
descriptor: its name, whether it takes a receiver, whether it references
the implementing type itself in a non-receiver position, and an optional
default body (§3, CapabilityDescriptor). -/
structure MethodSig where
  name : String
  hasReceiver : Bool
  selfNonReceiver : Bool
  defaultBody : Option MethodBody

/-- Modelled from the spec: a capability descriptor (§3): id, ordered
method signatures, associated-type slot names and required supertraits. -/
structure CapabilityDescriptor where
  id : Nat
  methods : List MethodSig
  assocSlots : List String
  supertraits : List Nat

/-- Modelled from the spec: dispatch-eligibility (§3): false if any
method references the implementing type itself outside the receiver
position or has no receiver. -/
def dispatchEligibleB (d : CapabilityDescriptor) : Bool :=
  d.methods.all (fun m => m.hasReceiver && !m.selfNonReceiver)

/-- Modelled from the spec: an implementation record (§3): binds one
concrete type to one capability, with associated-type slot assignments,
method bodies and the provenance module. -/
structure ImplementationRecord where
  capabilityId : Nat
  typeId : Nat
  assocAssignments : List (String × Nat)
  bodies : List (String × MethodBody)
  provenance : Nat

/-- Modelled from the spec: the engine state consulted by registration,
bound checking and vtable building: descriptors, implementation records,
and the origin module of each capability and each type. -/
structure Env where
  descriptors : List CapabilityDescriptor
  records : List ImplementationRecord
  capOrigin : Nat → Nat
  typeOrigin : Nat → Nat

def lookupDescriptor (env : Env) (c : Nat) : Option CapabilityDescriptor :=
  env.descriptors.find? (fun d => d.id == c)

def lookupRecord (env : Env) (c t : Nat) : Option ImplementationRecord :=
  env.records.find? (fun r => r.capabilityId == c && r.typeId == t)

/-- Number of implementation records held for a (capability, type) pair. -/
def countRecords (env : Env) (c t : Nat) : Nat :=
  (env.records.filter (fun r => r.capabilityId == c && r.typeId == t)).length

inductive CoherenceError where
  | duplicateImplementation
  | orphanViolation
  deriving DecidableEq

/-- Modelled from the spec: `register` of the coherence registry (§4.1):
fails with `DuplicateImplementation` if a record already exists for the
(capability, type) key, fails with `OrphanViolation` if neither the
capability nor the type originates from the registering module, and
otherwise stores the record. -/
def register (env : Env) (rec : ImplementationRecord) :
    Except CoherenceError Env :=
  if (lookupRecord env rec.capabilityId rec.typeId).isSome then
    .error .duplicateImplementation
  else if rec.provenance == env.capOrigin rec.capabilityId
       || rec.provenance == env.typeOrigin rec.typeId then
    .ok { env with records := rec :: env.records }
  else
    .error .orphanViolation

def bodyLookup (rec : ImplementationRecord) (name : String) :
    Option MethodBody :=
  (rec.bodies.find? (fun p => p.1 == name)).map (fun p => p.2)

def assocLookup (rec : ImplementationRecord) (slot : String) : Option Nat :=
  (rec.assocAssignments.find? (fun p => p.1 == slot)).map (fun p => p.2)

inductive BoundError where
  | unsatisfiedBound
  | associatedTypeMismatch
  deriving DecidableEq

/-- Modelled from the spec: the recursive ancestry walk of the bound
checker (§4.2): a type implements a capability only if a record for the
pair is registered and every supertrait of the capability is recursively
implemented as well.  The fuel bounds the walk over the requirement
graph; the spec's graph is acyclic, so any fuel exceeding the number of
registered descriptors is enough, and exhaustion is a conservative
failure. -/
def implemented (env : Env) : Nat → Nat → Nat → Bool
  | 0, _, _ => false
  | fuel + 1, t, c =>
    (lookupRecord env c t).isSome &&
      (match lookupDescriptor env c with
       | some d => d.supertraits.all (fun s => implemented env fuel t s)
       | none => false)

/-- Fuel sufficient for any acyclic supertrait walk over `env`. -/
def implFuel (env : Env) : Nat :=
  env.descriptors.length + 1

/-- A constraint of §4.2: a required capability together with optional
associated-type equality constraints. -/
def Constraint : Type := Nat × List (String × Nat)

/-- The substitution of §4.2: the resolved associated-type slot
assignments for each required capability. -/
def Substitution : Type := List (Nat × List (String × Nat))

/-- Modelled from the spec: resolution of one constraint (§4.2): the
capability (and, recursively, its supertrait ancestry) must be
implemented for the type, else `UnsatisfiedBound`; each associated-type
equality constraint is compared by TypeId equality against the located
record's slot assignment, failing with `AssociatedTypeMismatch` on
divergence. -/
def resolveConstraint (env : Env) (t : Nat) (con : Constraint) :
    Except BoundError (List (String × Nat)) :=
  if implemented env (implFuel env) t con.1 then
    match lookupRecord env con.1 t with
    | some rec =>
      if con.2.all (fun sc => assocLookup rec sc.1 == some sc.2) then
        .ok rec.assocAssignments
      else
        .error .associatedTypeMismatch
    | none => .error .unsatisfiedBound
  else
    .error .unsatisfiedBound

/-- Modelled from the spec: `satisfies` of the bound checker (§4.2),
verifying a candidate type against an ordered list of constraints and
returning the resolved substitution. -/
def satisfies (env : Env) (t : Nat) :
    List Constraint → Except BoundError Substitution
  | [] => .ok []
  | con :: rest =>
    match resolveConstraint env t con with
    | .error e => .error e
    | .ok assigns =>
      match satisfies env t rest with
      | .error e => .error e
      | .ok others => .ok ((con.1, assigns) :: others)

/-- Modelled from the spec: `bind<Constraints>(typeId)` of §6 is the
bound checker entry point returning a substitution for generic use. -/
def bind (env : Env) (t : Nat) (cs : List Constraint) :
    Except BoundError Substitution :=
  satisfies env t cs

/-- A specialized-routine handle of §4.3. -/
def Handle : Type := Nat

/-- Modelled from the spec: the generic specialization cache (§9): an
arena of handles indexed by (routineId, typeId, substitution-hash). -/
structure SpecCache where
  entries : List ((Nat × Nat × Nat) × Handle)
  nextHandle : Nat

def lookupSpec (cache : SpecCache) (key : Nat × Nat × Nat) : Option Handle :=
  (cache.entries.find? (fun p => p.1 == key)).map (fun p => p.2)

/-- Modelled from the spec: `specialize` of the static specializer
(§4.3): produces, or returns the cached, direct call target for a
(generic routine, concrete type, resolved substitution) key.  The
`scopeInfo` argument models lifetime-like scoping information, which
never influences the produced handle (source: lifetimes never have any
impact on machine code, `nearest` commentary). -/
def specialize (cache : SpecCache) (routineId typeId subHash : Nat)
    (scopeInfo : Nat) : Handle × SpecCache :=
  let _ := scopeInfo
  match lookupSpec cache (routineId, typeId, subHash) with
  | some h => (h, cache)
  | none =>
    (cache.nextHandle,
     { entries := ((routineId, typeId, subHash), cache.nextHandle)
         :: cache.entries,
       nextHandle := cache.nextHandle + 1 })

inductive DispatchError where
  | dispatchIneligible
  deriving DecidableEq

/-- Modelled from the spec: a dispatch table (§3): a fixed-order array
of method slots mirroring the capability's method order.  `tid` is the
build stamp standing for the table's identity (pointer), so that
pointer equality of tables is expressible in the model. -/
structure DispatchTable where
  tid : Nat
  slots : List (Option MethodBody)

/-- Modelled from the spec: the process-wide dispatch-table cache of the
vtable builder (§4.4), keyed by (capabilityId, typeId); `nextId` stamps
newly built tables with fresh identities. -/
structure VtableCache where
  entries : List ((Nat × Nat) × DispatchTable)
  nextId : Nat

def emptyVtableCache : VtableCache :=
  { entries := [], nextId := 0 }

def lookupTable (cache : VtableCache) (c t : Nat) : Option DispatchTable :=
  (cache.entries.find? (fun p => p.1 == (c, t))).map (fun p => p.2)

/-- Modelled from the spec: table construction (§4.4): slot `i` holds the
method body from the implementation record at the position matching
descriptor method `i`, or the descriptor's default body if the record
omitted it. -/
def buildTable (stamp : Nat) (d : CapabilityDescriptor)
    (rec : ImplementationRecord) : DispatchTable :=
  { tid := stamp,
    slots := d.methods.map (fun m =>
      match bodyLookup rec m.name with
      | some b => some b
      | none => m.defaultBody) }

/-- Modelled from the spec: `getOrBuild` of the vtable builder (§4.4):
fails with `DispatchIneligible` when the capability's eligibility flag
is false; otherwise returns the cached table for the pair, or builds it
on first request, publishes it to the cache and returns it. -/
def getOrBuild (env : Env) (cache : VtableCache) (c t : Nat) :
    Except DispatchError (DispatchTable × VtableCache) :=
  match lookupDescriptor env c with
  | none => .error .dispatchIneligible
  | some d =>
    if dispatchEligibleB d then
      match lookupTable cache c t with
      | some tbl => .ok (tbl, cache)
      | none =>
        match lookupRecord env c t with
        | none => .error .dispatchIneligible
        | some rec =>
          let tbl := buildTable cache.nextId d rec
          .ok (tbl,
               { entries := ((c, t), tbl) :: cache.entries,
                 nextId := cache.nextId + 1 })
    else .error .dispatchIneligible

/-- The cache state after a `getOrBuild` call: unchanged when the call
failed, the updated cache when it succeeded. -/
def cacheAfter (cache : VtableCache)
    (res : Except DispatchError (DispatchTable × VtableCache)) :
    VtableCache :=
  match res with
  | .ok (_, cache1) => cache1
  | .error _ => cache

/-- Modelled from the spec: a dynamic capability reference (§3): a
two-word value pairing the borrowed data pointer with the borrowed
dispatch-table pointer. -/
structure DynamicCapabilityReference where
  data : Value
  table : DispatchTable

/-- Modelled from the spec: `asDynamic` / `wrap` of the object wrapper
(§4.5, §6): determines the value's TypeId, requests a dispatch table
from the vtable builder, and pairs the data pointer with it. -/
def asDynamic (env : Env) (cache : VtableCache) (v : Value) (c : Nat) :
    Except DispatchError (DynamicCapabilityReference × VtableCache) :=
  match getOrBuild env cache c v.typeId with
  | .ok (tbl, cache1) => .ok ({ data := v, table := tbl }, cache1)
  | .error e => .error e

/-- Modelled from the spec: `call` / `invoke` of the object wrapper
(§4.5): locates the slot at the method index in the referenced table and
invokes it with the data pointer as receiver; `none` models a slot the
caller may not use (out of range or absent body). -/
def invoke (r : DynamicCapabilityReference) (methodIndex : Nat) :
    Option String :=
  match r.table.slots.get? methodIndex with
  | some (some body) => some (body r.data)
  | _ => none

end CapEngine

namespace RustSrc

/-- Embedding of `std::io::Error` as an opaque error payload. -/
structure IoError where
  code : Nat
  deriving DecidableEq

/-- Embedding of the `Write` trait of `src/main.rs` (lines 355-368): a
writer over an explicit state `σ`, with the two required methods
`write` (returning the number of bytes written) and `flush`.  A byte is
a `Nat`. -/
structure Writer (σ : Type) where
  write : σ → List Nat → Except IoError (σ × Nat)
  flush : σ → Except IoError σ

/-- Embedding of `impl Write for Sink` (lines 340-349): `write` claims
to have successfully written the whole buffer and `flush` does
nothing; neither ever returns an error. -/
def sinkWriter : Writer Unit :=
  { write := fun s buf => .ok (s, buf.length),
    flush := fun s => .ok s }

/-- Embedding of the default `write_all` of the `Write` trait
(lines 359-365):
`let mut bytes_written = 0; while bytes_written < buf.len() { bytes_written += self.write(&buf[bytes_written..])?; } Ok(())`.
The loop is run on fuel (`none` means the fuel ran out before the loop
exited, i.e. non-termination within the allotted steps), and the result
is instrumented with the number of calls made to `write`. -/
def writeAllAux {σ : Type} (w : Writer σ) (buf : List Nat) :
    Nat → σ → Nat → Nat → Option (Except IoError (σ × Nat))
  | 0, s, bytesWritten, calls =>
    if bytesWritten < buf.length then none
    else some (.ok (s, calls))
  | fuel + 1, s, bytesWritten, calls =>
    if bytesWritten < buf.length then
      match w.write s (buf.drop bytesWritten) with
      | .error e => some (.error e)
      | .ok (s1, n) =>
        writeAllAux w buf fuel s1 (bytesWritten + n) (calls + 1)
    else
      some (.ok (s, calls))

/-- Embedding of a `write_all` call starting from `bytes_written = 0`
with zero `write` calls made so far. -/
def writeAll {σ : Type} (w : Writer σ) (buf : List Nat) (fuel : Nat)
    (s : σ) : Option (Except IoError (σ × Nat)) :=
  writeAllAux w buf fuel s 0 0

end RustSrc

namespace CapEngine

/-- A supertrait-ancestry path of the given length in the requirement
graph of `env`: `SuperPath env c s n` holds when `s` is reachable from
`c` in `n` supertrait steps (§9: the requirement DAG walked by the
bound checker). -/
inductive SuperPath (env : Env) : Nat → Nat → Nat → Prop
  | refl (c : Nat) : SuperPath env c c 0
  | step {c s1 s2 n : Nat} {d : CapabilityDescriptor} :
      lookupDescriptor env c = some d → s1 ∈ d.supertraits →
      SuperPath env s1 s2 n → SuperPath env c s2 (n + 1)

/-- Concrete registry for witnesses: no descriptors, no records, every
capability and type owned by module 0. -/
def envC1 : Env :=
  { descriptors := [], records := [],
    capOrigin := fun _ => 0, typeOrigin := fun _ => 0 }

/-- Concrete record for witnesses: capability 1 implemented for type 2
by module 0. -/
def recC1 : ImplementationRecord :=
  { capabilityId := 1, typeId := 2, assocAssignments := [], bodies := [],
    provenance := 0 }

/-- Concrete registry already holding a record for (1, 2). -/
def envDup : Env :=
  { descriptors := [], records := [recC1],
    capOrigin := fun _ => 0, typeOrigin := fun _ => 0 }

/-- Concrete record for the key (1, 2) registered by module 5, which
owns neither capability 1 nor type 2. -/
def recOrphan : ImplementationRecord :=
  { capabilityId := 1, typeId := 2, assocAssignments := [], bodies := [],
    provenance := 5 }

/-- Concrete `Visible`-like capability (id 0, no supertraits). -/
def visibleDesc : CapabilityDescriptor :=
  { id := 0, methods := [], assocSlots := [], supertraits := [] }

/-- Concrete `Creature`-like capability (id 1) with supertrait 0
(source: `trait Creature: Visible`). -/
def creatureDesc : CapabilityDescriptor :=
  { id := 1, methods := [], assocSlots := [], supertraits := [0] }

/-- Concrete record implementing `Creature` (capability 1) for type 2. -/
def creatureRec : ImplementationRecord :=
  { capabilityId := 1, typeId := 2, assocAssignments := [], bodies := [],
    provenance := 0 }

/-- Concrete registry where type 2 implements `Creature` (capability 1)
but no record exists for its supertrait `Visible` (capability 0). -/
def envCreature : Env :=
  { descriptors := [visibleDesc, creatureDesc], records := [creatureRec],
    capOrigin := fun _ => 0, typeOrigin := fun _ => 0 }

/-- Concrete `splice`-like method signature: takes a receiver and
references the implementing type itself in a non-receiver position
(source: `fn splice(&self, other: &Self) -> Self`). -/
def spliceSig : MethodSig :=
  { name := "splice", hasReceiver := true, selfNonReceiver := true,
    defaultBody := none }

/-- Concrete `Spliceable`-like capability (id 4) whose only method is
clone-like. -/
def spliceableDesc : CapabilityDescriptor :=
  { id := 4, methods := [spliceSig], assocSlots := [], supertraits := [] }

/-- Concrete record implementing `Spliceable` (capability 4) for
type 20. -/
def spliceableRec : ImplementationRecord :=
  { capabilityId := 4, typeId := 20, assocAssignments := [],
    bodies := [("splice", fun _ => "spliced")], provenance := 0 }

/-- Concrete registry where type 20 implements the clone-like
capability 4. -/
def envSpliceable : Env :=
  { descriptors := [spliceableDesc], records := [spliceableRec],
    capOrigin := fun _ => 0, typeOrigin := fun _ => 0 }

/-- The `greet() -> Text` method signature of the `Greeter` capability:
receiver, no self reference, no default body. -/
def greetSig : MethodSig :=
  { name := "greet", hasReceiver := true, selfNonReceiver := false,
    defaultBody := none }

/-- The `Greeter` capability (id 0) with the single method `greet` and
no defaults. -/
def greeterDesc : CapabilityDescriptor :=
  { id := 0, methods := [greetSig], assocSlots := [], supertraits := [] }

/-- An implementation record of `Greeter` for the given type with the
given `greet` body. -/
def greeterRec (t : Nat) (body : MethodBody) : ImplementationRecord :=
  { capabilityId := 0, typeId := t, assocAssignments := [],
    bodies := [("greet", body)], provenance := 0 }

/-- Registry holding only the `Greeter` capability, before any
implementation is registered. -/
def greeterBaseEnv : Env :=
  { descriptors := [greeterDesc], records := [],
    capOrigin := fun _ => 0, typeOrigin := fun _ => 0 }

/-- Concrete dispatch table standing for an already-built table. -/
def tblC6 : DispatchTable :=
  { tid := 42, slots := [] }

/-- Concrete vtable cache already holding a table for the pair (0, 10),
with `Greeter` as capability 0. -/
def cacheC6 : VtableCache :=
  { entries := [((0, 10), tblC6)], nextId := 5 }

/-- Concrete registry for the vtable-builder witnesses: the `Greeter`
capability implemented for types 10 and 11. -/
def envGreeter : Env :=
  { descriptors := [greeterDesc],
    records := [greeterRec 10 (fun _ => "A says hi"),
                greeterRec 11 (fun _ => "B says hi")],
    capOrigin := fun _ => 0, typeOrigin := fun _ => 0 }

/-- A `log`-like method signature carrying a default body (for the
slot-filling witness). -/
def logSig : MethodSig :=
  { name := "log", hasReceiver := true, selfNonReceiver := false,
    defaultBody := some (fun _ => "default log") }

/-- Concrete capability (id 7) with one required method and one
defaulted method. -/
def sinkLikeDesc : CapabilityDescriptor :=
  { id := 7, methods := [greetSig, logSig], assocSlots := [],
    supertraits := [] }

/-- Concrete record implementing capability 7 for type 30, supplying a
body for `greet` and omitting the defaulted `log`. -/
def sinkLikeRec : ImplementationRecord :=
  { capabilityId := 7, typeId := 30, assocAssignments := [],
    bodies := [("greet", fun v => v.payload)], provenance := 0 }

/-- Concrete registry for the slot-filling witness. -/
def envSinkLike : Env :=
  { descriptors := [sinkLikeDesc], records := [sinkLikeRec],
    capOrigin := fun _ => 0, typeOrigin := fun _ => 0 }

/-- Concrete empty specialization cache. -/
def specCache0 : SpecCache :=
  { entries := [], nextHandle := 0 }

theorem lookupRecord_cons (env : Env) (r : ImplementationRecord) (c t : Nat) :
    lookupRecord { env with records := r :: env.records } c t
      = if r.capabilityId == c && r.typeId == t then some r
        else lookupRecord env c t := by
  simp only [lookupRecord, List.find?]
  cases h : (r.capabilityId == c && r.typeId == t) <;> simp [h]

theorem countRecords_eq_zero_of_lookup_none (env : Env) (c t : Nat)
    (h : lookupRecord env c t = none) : countRecords env c t = 0 := by
  simp only [lookupRecord, List.find?_eq_none] at h
  simp only [countRecords, List.length_eq_zero, List.filter_eq_nil_iff]
  intro r hr
  exact h r hr

/-- C1: a first `register` for a fresh (capabilityId, typeId) key, made
by a module owning the capability or the type, succeeds; afterwards the
registry holds exactly one record for the pair, and any second
`register` for the same key fails with `DuplicateImplementation`. -/
theorem register_first_ok_second_duplicate
    (env : Env) (rec : ImplementationRecord) (c t : Nat)
    (hc : rec.capabilityId = c) (ht : rec.typeId = t)
    (hfresh : lookupRecord env c t = none)
    (hown : rec.provenance = env.capOrigin c ∨
            rec.provenance = env.typeOrigin t) :
    ∃ env1, register env rec = .ok env1 ∧
      countRecords env1 c t = 1 ∧
      ∀ rec2 : ImplementationRecord, rec2.capabilityId = c →
        rec2.typeId = t →
        register env1 rec2 = .error .duplicateImplementation := by
  subst hc ht
  refine ⟨{ env with records := rec :: env.records }, ?_, ?_, ?_⟩
  · simp only [register, hfresh, Option.isSome_none, Bool.false_eq_true,
      if_false]
    rcases hown with h | h <;> simp [h]
  · simp only [countRecords, List.filter, beq_self_eq_true, Bool.and_self,
      List.length_cons]
    have h0 : countRecords env rec.capabilityId rec.typeId = 0 :=
      countRecords_eq_zero_of_lookup_none env _ _ hfresh
    simpa [countRecords] using h0
  · intro rec2 hc2 ht2
    have hfound : lookupRecord { env with records := rec :: env.records }
        rec2.capabilityId rec2.typeId = some rec := by
      rw [lookupRecord_cons, hc2, ht2]
      simp
    simp [register, hfound]

/-- Witness for C1 at a concrete registry and record. -/
theorem register_first_ok_second_duplicate_witness :
    ∃ env1, register envC1 recC1 = .ok env1 ∧
      countRecords env1 1 2 = 1 ∧
      ∀ rec2 : ImplementationRecord, rec2.capabilityId = 1 →
        rec2.typeId = 2 →
        register env1 rec2 = .error .duplicateImplementation :=
  register_first_ok_second_duplicate envC1 recC1 1 2 rfl rfl rfl
    (Or.inl rfl)

/-- C8 counterexample: a record whose provenance (module 5) owns
neither capability 1 nor type 2, submitted for a key that is already
registered, is rejected with `DuplicateImplementation`, not
`OrphanViolation` — so `register` does not return `OrphanViolation`
exactly when the orphan condition holds. -/
theorem register_orphan_counterexample :
    recOrphan.provenance ≠ envDup.capOrigin recOrphan.capabilityId ∧
    recOrphan.provenance ≠ envDup.typeOrigin recOrphan.typeId ∧
    register envDup recOrphan = .error .duplicateImplementation ∧
    register envDup recOrphan ≠ .error .orphanViolation := by
  refine ⟨by decide, by decide, rfl, ?_⟩
  rw [show register envDup recOrphan = .error .duplicateImplementation
    from rfl]
  simp

/-- C8 (amended): `register` returns `OrphanViolation` exactly when the
(capabilityId, typeId) key is not already registered and neither the
capability nor the type originates from the registering module; an
already-registered key always gets `DuplicateImplementation`; and a
record whose provenance owns the capability or the type is never
rejected with `OrphanViolation`, whatever the registry holds. -/
theorem register_orphan_characterization
    (env : Env) (rec : ImplementationRecord) :
    (register env rec = .error .orphanViolation ↔
      (lookupRecord env rec.capabilityId rec.typeId = none ∧
       rec.provenance ≠ env.capOrigin rec.capabilityId ∧
       rec.provenance ≠ env.typeOrigin rec.typeId)) ∧
    (∀ r0, lookupRecord env rec.capabilityId rec.typeId = some r0 →
      register env rec = .error .duplicateImplementation) ∧
    ((rec.provenance = env.capOrigin rec.capabilityId ∨
      rec.provenance = env.typeOrigin rec.typeId) →
      register env rec ≠ .error .orphanViolation) := by
  refine ⟨?_, ?_, ?_⟩
  · cases hl : lookupRecord env rec.capabilityId rec.typeId with
    | some r0 => simp [register, hl]
    | none =>
      simp only [register, hl, Option.isSome_none, Bool.false_eq_true,
        if_false]
      by_cases hcap : rec.provenance = env.capOrigin rec.capabilityId
      · simp [hcap]
      · by_cases htyp : rec.provenance = env.typeOrigin rec.typeId
        · simp [hcap, htyp]
        · simp [hcap, htyp]
  · intro r0 hl
    simp [register, hl]
  · intro hown
    simp only [register]
    by_cases hdup :
        (lookupRecord env rec.capabilityId rec.typeId).isSome = true
    · simp [hdup]
    · rcases hown with h | h <;> simp [hdup, h]

/-- Witness for the amended C8: a fresh orphan registration is rejected
with `OrphanViolation`, an orphan registration for an occupied key gets
`DuplicateImplementation`, and an owning registration is never rejected
for orphan reasons. -/
theorem register_orphan_characterization_witness :
    register envC1 recOrphan = .error .orphanViolation ∧
    register envDup recOrphan = .error .duplicateImplementation ∧
    register envC1 recC1 ≠ .error .orphanViolation :=
  ⟨(register_orphan_characterization envC1 recOrphan).1.mpr
      ⟨rfl, by decide, by decide⟩,
   (register_orphan_characterization envDup recOrphan).2.1 recC1 rfl,
   (register_orphan_characterization envC1 recC1).2.2 (Or.inl rfl)⟩

/-- C5: `specialize` is idempotent — a second call with the same
routine, type and resolved substitution returns the identical cached
handle and leaves the cache untouched — and two instantiations that
differ only in unused lifetime-like scoping information collapse to the
same handle. -/
theorem specialize_idempotent
    (cache : SpecCache) (routineId typeId subHash : Nat)
    (scope1 scope2 : Nat) :
    specialize cache routineId typeId subHash scope1
      = specialize cache routineId typeId subHash scope2 ∧
    specialize (specialize cache routineId typeId subHash scope1).2
        routineId typeId subHash scope2
      = specialize cache routineId typeId subHash scope1 := by
  refine ⟨rfl, ?_⟩
  cases h : lookupSpec cache (routineId, typeId, subHash) with
  | some hdl => simp [specialize, h]
  | none =>
    simp only [specialize, h]
    have hfound :
        lookupSpec
          { entries := ((routineId, typeId, subHash), cache.nextHandle)
              :: cache.entries,
            nextHandle := cache.nextHandle + 1 }
          (routineId, typeId, subHash) = some cache.nextHandle := by
      simp [lookupSpec, List.find?]
    simp [hfound]

theorem superPath_record_missing_not_implemented
    (env : Env) (t : Nat) {c s n : Nat}
    (hpath : SuperPath env c s n)
    (hmiss : lookupRecord env s t = none) :
    ∀ fuel, n < fuel → implemented env fuel t c = false := by
  induction hpath with
  | refl c =>
    intro fuel hf
    cases fuel with
    | zero => omega
    | succ f => simp [implemented, hmiss]
  | @step c s1 s2 n d hd hmem _ ih =>
    intro fuel hf
    cases fuel with
    | zero => omega
    | succ f =>
      have hih : implemented env f t s1 = false := ih hmiss f (by omega)
      have hall :
          d.supertraits.all (fun s0 => implemented env f t s0) = false := by
        cases hall2 : d.supertraits.all (fun s0 => implemented env f t s0)
        · rfl
        · rw [List.all_eq_true] at hall2
          exact absurd (hall2 s1 hmem) (by simp [hih])
      simp [implemented, hd, hall]

/-- C3: if capability `s` lies in the supertrait ancestry of capability
`c` (any number of steps) and no record for (s, T) is registered, then
`satisfies(T, [c])` fails with `UnsatisfiedBound` — regardless of
whether a record for (c, T) itself exists, since the ancestry is
checked recursively, not assumed. -/
theorem satisfies_supertrait_missing
    (env : Env) (t c s n : Nat)
    (hpath : SuperPath env c s n) (hn : n ≤ env.descriptors.length)
    (hmiss : lookupRecord env s t = none) :
    satisfies env t [(c, [])] = .error .unsatisfiedBound := by
  have himpl : implemented env (implFuel env) t c = false :=
    superPath_record_missing_not_implemented env t hpath hmiss _
      (by simp only [implFuel]; omega)
  simp [satisfies, resolveConstraint, himpl]

/-- Witness for C3 at the `Creature : Visible` example: type 2
implements capability 1 (`Creature`) but has no record for its
supertrait 0 (`Visible`), so the bound check fails. -/
theorem satisfies_supertrait_missing_witness :
    satisfies envCreature 2 [(1, [])] = .error .unsatisfiedBound :=
  satisfies_supertrait_missing envCreature 2 1 0 1
    (SuperPath.step rfl (by decide) (SuperPath.refl 0)) (by decide) rfl

/-- C2: a capability with a method that references the implementing
type itself in a non-receiver position (clone-like contract) yields
`DispatchIneligible` from `asDynamic`, while the static bound check
(`bind`) for the same capability succeeds for a type implementing it. -/
theorem selfReturning_asDynamic_ineligible_bind_ok
    (env : Env) (cache : VtableCache) (v : Value) (c : Nat)
    (d : CapabilityDescriptor) (m : MethodSig)
    (hd : lookupDescriptor env c = some d)
    (hm : m ∈ d.methods) (hself : m.selfNonReceiver = true)
    (himpl : implemented env (implFuel env) v.typeId c = true) :
    asDynamic env cache v c = .error .dispatchIneligible ∧
    ∃ sub, bind env v.typeId [(c, [])] = .ok sub := by
  have hinelig : dispatchEligibleB d = false := by
    cases he : dispatchEligibleB d
    · rfl
    · rw [dispatchEligibleB, List.all_eq_true] at he
      have hme := he m hm
      rw [hself] at hme
      simp at hme
  constructor
  · simp [asDynamic, getOrBuild, hd, hinelig]
  · have h1 := himpl
    rw [implFuel] at h1
    simp only [implemented, Bool.and_eq_true] at h1
    obtain ⟨rec, hrec⟩ := Option.isSome_iff_exists.mp h1.1
    exact ⟨[(c, rec.assocAssignments)],
      by simp [bind, satisfies, resolveConstraint, himpl, hrec]⟩

/-- Witness for C2 at the `Spliceable` example: capability 4's `splice`
method returns `Self`, so dynamic use is rejected while the static
bound check for implementing type 20 succeeds. -/
theorem selfReturning_asDynamic_ineligible_bind_ok_witness :
    asDynamic envSpliceable emptyVtableCache
        { typeId := 20, payload := "x" } 4 = .error .dispatchIneligible ∧
    ∃ sub, bind envSpliceable 20 [(4, [])] = .ok sub :=
  selfReturning_asDynamic_ineligible_bind_ok envSpliceable
    emptyVtableCache { typeId := 20, payload := "x" } 4 spliceableDesc
    spliceSig rfl (by simp [spliceableDesc]) rfl rfl

theorem getOrBuild_preserves_entry
    (env : Env) (cache : VtableCache) (c t : Nat) (tbl : DispatchTable)
    (hcached : lookupTable cache c t = some tbl) (c2 t2 : Nat) :
    lookupTable (cacheAfter cache (getOrBuild env cache c2 t2)) c t
      = some tbl := by
  cases hd2 : lookupDescriptor env c2 with
  | none => simpa [getOrBuild, hd2, cacheAfter] using hcached
  | some d2 =>
    cases he2 : dispatchEligibleB d2 with
    | false => simpa [getOrBuild, hd2, he2, cacheAfter] using hcached
    | true =>
      cases hc2 : lookupTable cache c2 t2 with
      | some tbl2 =>
        simpa [getOrBuild, hd2, he2, hc2, cacheAfter] using hcached
      | none =>
        cases hr2 : lookupRecord env c2 t2 with
        | none => simpa [getOrBuild, hd2, he2, hc2, hr2, cacheAfter]
            using hcached
        | some rec2 =>
          simp only [getOrBuild, hd2, he2, hc2, hr2, if_true, cacheAfter]
          by_cases hk : (c2, t2) = (c, t)
          · injection hk with hk1 hk2
            subst hk1
            subst hk2
            rw [hc2] at hcached
            exact absurd hcached (by simp)
          · have hkb : ((c2, t2) == (c, t)) = false :=
              beq_eq_false_iff_ne.mpr hk
            simpa [lookupTable, List.find?, hkb] using hcached

/-- C6: for a dispatch-eligible (capabilityId, typeId) pair whose table
is already in the cache, `getOrBuild` returns that very table and
leaves the cache unchanged (no rebuild), and the pair's cache entry
survives any later `getOrBuild` call unchanged — the table's identity
is stable once built. -/
theorem getOrBuild_identity_stable
    (env : Env) (cache : VtableCache) (c t : Nat)
    (d : CapabilityDescriptor) (tbl : DispatchTable)
    (hd : lookupDescriptor env c = some d)
    (he : dispatchEligibleB d = true)
    (hcached : lookupTable cache c t = some tbl) :
    getOrBuild env cache c t = .ok (tbl, cache) ∧
    ∀ c2 t2,
      lookupTable (cacheAfter cache (getOrBuild env cache c2 t2)) c t
        = some tbl := by
  exact ⟨by simp [getOrBuild, hd, he, hcached],
    fun c2 t2 => getOrBuild_preserves_entry env cache c t tbl hcached c2 t2⟩

/-- Witness for C6: the cached table for (0, 10) is returned unchanged
and survives the `getOrBuild` that builds a fresh table for (0, 11). -/
theorem getOrBuild_identity_stable_witness :
    getOrBuild envGreeter cacheC6 0 10 = .ok (tblC6, cacheC6) ∧
    lookupTable (cacheAfter cacheC6 (getOrBuild envGreeter cacheC6 0 11))
        0 10 = some tblC6 :=
  ⟨(getOrBuild_identity_stable envGreeter cacheC6 0 10 greeterDesc tblC6
      rfl rfl rfl).1,
   (getOrBuild_identity_stable envGreeter cacheC6 0 10 greeterDesc tblC6
      rfl rfl rfl).2 0 11⟩

/-- C7: on a first request for a dispatch-eligible registered pair,
`getOrBuild` builds a table with one slot per descriptor method, where
slot `i` holds the body the implementation record supplies for
descriptor method `i`, and holds the descriptor's default body exactly
when the record omits a body for that method. -/
theorem getOrBuild_slot_contents
    (env : Env) (cache : VtableCache) (c t : Nat)
    (d : CapabilityDescriptor) (rec : ImplementationRecord)
    (hd : lookupDescriptor env c = some d)
    (he : dispatchEligibleB d = true)
    (hnc : lookupTable cache c t = none)
    (hrec : lookupRecord env c t = some rec) :
    ∃ tbl cache1, getOrBuild env cache c t = .ok (tbl, cache1) ∧
      tbl.slots.length = d.methods.length ∧
      ∀ i m, d.methods.get? i = some m →
        (∀ b, bodyLookup rec m.name = some b →
            tbl.slots.get? i = some (some b)) ∧
        (bodyLookup rec m.name = none →
            tbl.slots.get? i = some m.defaultBody) := by
  refine ⟨buildTable cache.nextId d rec,
    { entries := ((c, t), buildTable cache.nextId d rec) :: cache.entries,
      nextId := cache.nextId + 1 },
    by simp [getOrBuild, hd, he, hnc, hrec], by simp [buildTable], ?_⟩
  intro i m hm
  have hm2 : d.methods[i]? = some m := by
    rw [← List.get?_eq_getElem?]
    exact hm
  constructor
  · intro b hb
    simp [buildTable, List.getElem?_map, hm2, hb]
  · intro hb
    simp [buildTable, List.getElem?_map, hm2, hb]

/-- Witness for C7 at capability 7 for type 30: the record's `greet`
body fills slot 0 and the omitted `log` method falls back to the
descriptor's default body in slot 1. -/
theorem getOrBuild_slot_contents_witness :
    ∃ tbl cache1,
      getOrBuild envSinkLike emptyVtableCache 7 30 = .ok (tbl, cache1) ∧
      tbl.slots.length = sinkLikeDesc.methods.length ∧
      ∀ i m, sinkLikeDesc.methods.get? i = some m →
        (∀ b, bodyLookup sinkLikeRec m.name = some b →
            tbl.slots.get? i = some (some b)) ∧
        (bodyLookup sinkLikeRec m.name = none →
            tbl.slots.get? i = some m.defaultBody) :=
  getOrBuild_slot_contents envSinkLike emptyVtableCache 7 30
    sinkLikeDesc sinkLikeRec rfl rfl rfl rfl

/-- C4: end-to-end dynamic dispatch: registering implementations of the
`Greeter` capability (one method `greet`, no defaults) for types 1 and
2 succeeds, `asDynamic` on a value of each type produces distinct
references whose dispatch tables are not shared, and invoking `greet`
through each reference returns the text that that value's own type's
implementation body produces. -/
theorem greeter_end_to_end
    (bodyA bodyB : MethodBody) (pA pB : String) :
    ∃ env1 env2 refA cache1 refB cache2,
      register greeterBaseEnv (greeterRec 1 bodyA) = .ok env1 ∧
      register env1 (greeterRec 2 bodyB) = .ok env2 ∧
      asDynamic env2 emptyVtableCache { typeId := 1, payload := pA } 0
        = .ok (refA, cache1) ∧
      asDynamic env2 cache1 { typeId := 2, payload := pB } 0
        = .ok (refB, cache2) ∧
      refA.table.tid ≠ refB.table.tid ∧
      refA.table ≠ refB.table ∧
      refA ≠ refB ∧
      invoke refA 0 = some (bodyA { typeId := 1, payload := pA }) ∧
      invoke refB 0 = some (bodyB { typeId := 2, payload := pB }) := by
  refine ⟨_, _, _, _, _, _, rfl, rfl, rfl, rfl, ?_, ?_, ?_, rfl, rfl⟩
  · exact (Nat.zero_ne_one : (0 : Nat) ≠ 1)
  · intro h
    exact Nat.zero_ne_one (congrArg DispatchTable.tid h)
  · intro h
    exact Nat.zero_ne_one
      (congrArg DispatchTable.tid
        (congrArg DynamicCapabilityReference.table h))

/-- Witness for C4 at concrete `greet` bodies and payloads. -/
theorem greeter_end_to_end_witness :
    ∃ env1 env2 refA cache1 refB cache2,
      register greeterBaseEnv
          (greeterRec 1 (fun _ => "A says hi")) = .ok env1 ∧
      register env1 (greeterRec 2 (fun _ => "B says hi")) = .ok env2 ∧
      asDynamic env2 emptyVtableCache { typeId := 1, payload := "a" } 0
        = .ok (refA, cache1) ∧
      asDynamic env2 cache1 { typeId := 2, payload := "b" } 0
        = .ok (refB, cache2) ∧
      refA.table.tid ≠ refB.table.tid ∧
      refA.table ≠ refB.table ∧
      refA ≠ refB ∧
      invoke refA 0 = some "A says hi" ∧
      invoke refB 0 = some "B says hi" :=
  greeter_end_to_end (fun _ => "A says hi") (fun _ => "B says hi") "a" "b"

end CapEngine

namespace RustSrc

theorem writeAllAux_done {σ : Type} (w : Writer σ) (buf : List Nat)
    (fuel : Nat) (s : σ) (bw calls : Nat) (h : buf.length ≤ bw) :
    writeAllAux w buf fuel s bw calls = some (.ok (s, calls)) := by
  cases fuel <;> rw [writeAllAux] <;> rw [if_neg (by omega)]

theorem writeAllAux_terminates {σ : Type} (w : Writer σ)
    (buf : List Nat)
    (hpos : ∀ (s1 : σ) (rest : List Nat) (s2 : σ) (n : Nat), rest ≠ [] →
      w.write s1 rest = .ok (s2, n) → 0 < n) :
    ∀ (fuel : Nat) (s : σ) (bw calls : Nat), buf.length - bw ≤ fuel →
      writeAllAux w buf fuel s bw calls ≠ none := by
  intro fuel
  induction fuel with
  | zero =>
    intro s bw calls hle
    rw [writeAllAux, if_neg (by omega)]
    simp
  | succ f ih =>
    intro s bw calls hle
    rw [writeAllAux]
    by_cases hbw : bw < buf.length
    · rw [if_pos hbw]
      cases hw : w.write s (buf.drop bw) with
      | error e => simp
      | ok p =>
        obtain ⟨s2, n⟩ := p
        have hdrop : buf.drop bw ≠ [] := by
          intro hnil
          have := congrArg List.length hnil
          simp at this
          omega
        have hn : 0 < n := hpos s (buf.drop bw) s2 n hdrop hw
        exact ih s2 (bw + n) (calls + 1) (by omega)
    · rw [if_neg hbw]
      simp

/-- C10 counterexample: on the empty buffer, the default `write_all`
loop for `Sink` returns `Ok(())` after zero calls to `write`, not
exactly one. -/
theorem sink_write_all_empty_counterexample :
    writeAll sinkWriter [] 1 () = some (.ok ((), 0)) ∧
    writeAll sinkWriter [] 1 () ≠ some (.ok ((), 1)) := by
  refine ⟨rfl, ?_⟩
  rw [show writeAll sinkWriter [] 1 () = some (.ok ((), 0)) from rfl]
  simp

/-- C10 (amended): `Sink::write` always returns `Ok(buf.len())` and
`Sink::flush` always returns `Ok(())`, so neither ever errors; the
default `write_all` loop for `Sink` terminates after exactly one call
to `write` when the buffer is nonempty (and zero calls when it is
empty), returning `Ok(())`; and in general the default `write_all`
terminates whenever every successful `write` on a nonempty remaining
buffer returns a strictly positive count. -/
theorem sink_write_all_behavior :
    (∀ (s : Unit) (buf : List Nat),
      sinkWriter.write s buf = .ok (s, buf.length)) ∧
    (∀ s : Unit, sinkWriter.flush s = .ok s) ∧
    (∀ (buf : List Nat) (fuel : Nat), buf ≠ [] → 1 ≤ fuel →
      writeAll sinkWriter buf fuel () = some (.ok ((), 1))) ∧
    (∀ fuel : Nat, writeAll sinkWriter [] fuel () = some (.ok ((), 0))) ∧
    (∀ (σ : Type) (w : Writer σ) (buf : List Nat) (s : σ) (fuel : Nat),
      (∀ (s1 : σ) (rest : List Nat) (s2 : σ) (n : Nat), rest ≠ [] →
        w.write s1 rest = .ok (s2, n) → 0 < n) →
      buf.length ≤ fuel → writeAll w buf fuel s ≠ none) := by
  refine ⟨fun s buf => rfl, fun s => rfl, ?_, ?_, ?_⟩
  · intro buf fuel hne hfuel
    have hb : 0 < buf.length := List.length_pos.mpr hne
    cases fuel with
    | zero => omega
    | succ f =>
      rw [writeAll, writeAllAux, if_pos hb]
      change writeAllAux sinkWriter buf f () (0 + buf.length) 1 = _
      exact writeAllAux_done sinkWriter buf f () (0 + buf.length) 1
        (by omega)
  · intro fuel
    exact writeAllAux_done sinkWriter [] fuel () 0 0 (by simp)
  · intro σ w buf s fuel hpos hfuel
    exact writeAllAux_terminates w buf hpos fuel s 0 0 (by omega)

/-- Witness for C10 (amended) at concrete inputs: `write` on a
three-byte buffer, `flush`, the one-call `write_all` on that buffer,
the zero-call `write_all` on the empty buffer, and termination of
`write_all` for `Sink` itself under the positivity precondition. -/
theorem sink_write_all_behavior_witness :
    sinkWriter.write () [7, 8, 9] = .ok ((), 3) ∧
    sinkWriter.flush () = .ok () ∧
    writeAll sinkWriter [7, 8, 9] 3 () = some (.ok ((), 1)) ∧
    writeAll sinkWriter [] 3 () = some (.ok ((), 0)) ∧
    writeAll sinkWriter [7, 8, 9] 3 () ≠ none :=
  ⟨sink_write_all_behavior.1 () [7, 8, 9],
   sink_write_all_behavior.2.1 (),
   sink_write_all_behavior.2.2.1 [7, 8, 9] 3 (by decide) (by decide),
   sink_write_all_behavior.2.2.2.1 3,
   sink_write_all_behavior.2.2.2.2 Unit sinkWriter [7, 8, 9] () 3
     (fun s1 rest s2 n hne hw => by
       rw [show sinkWriter.write s1 rest = .ok (s1, rest.length) from rfl]
         at hw
       cases hw
       simpa using List.length_pos.mpr hne)
     (by decide)⟩

end RustSrc
